import Mathlib

set_option autoImplicit false

/-!
Verification development for the AI-BOL-POC repository.

The repository extracts structured Bill-of-Lading fields from PDF uploads.
The code under scrutiny is:
  - pdf_processing.py: extract_text_from_pdf_with_image_fallback, the page-level
    text/OCR reconciliation pass (three selectable OCR backends);
  - app.py: its own variant of the same function (two backends, different
    missing-credential behaviour), the main request pipeline, and the
    usage/cost accounting;
  - api_services.py: secret-store lookups and the OCR backend call wrappers;
  - excel_utils.py: append_row_to_excel.

Modelling conventions:
  - Python strings are modelled as lists of characters (Str below); the Python
    method strip is modelled by the function strip, which removes whitespace
    characters from both ends.
  - External HTTP services (OCR backends, the structured-extraction model) are
    modelled as oracles: functions from a page index to the outcome the service
    would return for that page image.  An outcome ok t is a successful call
    whose wrapper in api_services returns the text t; an outcome fail m is any
    failing path (non-200 status, exception, empty result with a report) on
    which the wrapper reports the message m to the user and returns the empty
    string.
  - Calls to the Streamlit display functions and outgoing network requests are
    recorded as an event trace (the Event type); the order of events follows
    the order of the corresponding calls in the source.
-/

/-- Python strings, modelled as lists of characters. -/
abbrev Str := List Char

/-- Characters discarded by the Python method strip. -/
def isPySpace (c : Char) : Bool := c.isWhitespace

/-- Python lstrip. -/
def lstrip (s : Str) : Str := s.dropWhile isPySpace

/-- Python rstrip. -/
def rstrip (s : Str) : Str := (s.reverse.dropWhile isPySpace).reverse

/-- Python strip: remove whitespace from both ends. -/
def strip (s : Str) : Str := lstrip (rstrip s)

/-- Concatenation of a list of page texts where each entry is followed by a
newline, exactly as the loops build combined_text. -/
def joinNl : List Str → Str
  | [] => []
  | t :: rest => t ++ '\n' :: joinNl rest

/-- Page texts concatenated in order and separated (not terminated) by
newlines; the formulation used by the specification. -/
def sepNl : List Str → Str
  | [] => []
  | [t] => t
  | t :: rest => t ++ '\n' :: sepNl rest

/-- Token usage dictionary: the keys tracked by usage_dict in
extract_text_from_pdf_with_image_fallback. -/
structure Usage where
  prompt_tokens : Nat
  completion_tokens : Nat
  total_tokens : Nat
deriving DecidableEq, Repr

/-- The all-zero usage dictionary the loops start from. -/
def usage0 : Usage := ⟨0, 0, 0⟩

/-- Pointwise accumulation: for k in usage_dict, usage_dict[k] += usage.get(k, 0). -/
def addUsage (a b : Usage) : Usage :=
  ⟨a.prompt_tokens + b.prompt_tokens,
   a.completion_tokens + b.completion_tokens,
   a.total_tokens + b.total_tokens⟩

/-- One PDF page as seen by the loops: the result of page.extract_text,
which is None or a string. -/
structure PdfPage where
  extractedText : Option Str
deriving DecidableEq, Repr

/-- The Python guard "page_text and page_text.strip()": the page has embedded
text that is non-empty after stripping. -/
def pageHasText (p : PdfPage) : Bool :=
  match p.extractedText with
  | some t => !(strip t).isEmpty
  | none => false

/-- Outcome of one call to a text-only OCR backend (Google Cloud Vision or
Mistral OCR), as produced by the external service for a given page image. -/
inductive OcrOutcome where
  | ok (text : Str)
  | fail (msg : Str)
deriving DecidableEq

/-- Outcome of one call to the GPT-4 image API, which also reports usage. -/
inductive Gpt4Outcome where
  | ok (text : Str) (usage : Usage)
  | fail (msg : Str)
deriving DecidableEq

/-- Oracles for the three OCR backends, indexed by the (1-based) page number
whose rasterized image is submitted. -/
structure OcrBackends where
  gcv : Nat → OcrOutcome
  gpt4 : Nat → Gpt4Outcome
  mistral : Nat → OcrOutcome

/-- The secret store (st.secrets): the three credentials the code looks up.
none models a missing key (KeyError); some models a present value, which the
code still treats as missing when it is falsy (the empty string). -/
structure Secrets where
  gpt4oMini : Option Str
  googleVision : Option Str
  mistralOcr : Option Str

/-- Python truthiness of an optional string: present and non-empty. -/
def truthy : Option Str → Bool
  | none => false
  | some s => !s.isEmpty

/-- The string literals the code branches on. -/
def gcvStr : Str := "Google Cloud Vision".toList

/-- OCR choice literal for the GPT-4 image backend. -/
def gpt4Str : Str := "GPT-4".toList

/-- OCR choice literal for the Mistral OCR backend. -/
def mistralStr : Str := "Mistral OCR".toList

/-- Secret-store key name for the GPT-4o-mini credential. -/
def gptKeyName : Str := "api-key-gpt-4o-mini".toList

/-- Secret-store key name for the Google Cloud Vision credential. -/
def gvKeyName : Str := "api-key-google-vision".toList

/-- Secret-store key name for the Mistral OCR credential. -/
def mistralKeyName : Str := "api-key-mistral-ocr".toList

/-- User-visible reports and outgoing network requests, in program order.
info/error/warn constructors correspond to st.info, st.error and st.warning
calls; netOcr backend i marks the HTTP request issued by the backend call for
page i, and netExtraction marks the structured-extraction HTTP request. -/
inductive Event where
  | infoNoText (pageIdx : Nat) (choice : Str)
  | errorMissingKey (which : Str)
  | errorKeyRetrieval (which : Str)
  | errorOcr (backend : Str) (msg : Str)
  | warnUnknownChoice (choice : Str)
  | errorNoPages
  | netOcr (backend : Str) (pageIdx : Nat)
  | netExtraction
  | errorEmptyFile
  | warnNoText
  | errorApi
  | errorBadJson
deriving DecidableEq, Repr

/-- api_services.get_api_key: return the secret, or report and return None on
KeyError. -/
def get_api_key (sec : Secrets) : Option Str × List Event :=
  match sec.gpt4oMini with
  | some k => (some k, [])
  | none => (none, [Event.errorMissingKey gptKeyName])

/-- api_services.get_google_vision_api_key. -/
def get_google_vision_api_key (sec : Secrets) : Option Str × List Event :=
  match sec.googleVision with
  | some k => (some k, [])
  | none => (none, [Event.errorMissingKey gvKeyName])

/-- api_services.get_mistral_ocr_api_key. -/
def get_mistral_ocr_api_key (sec : Secrets) : Option Str × List Event :=
  match sec.mistralOcr with
  | some k => (some k, [])
  | none => (none, [Event.errorMissingKey mistralKeyName])

/-- api_services.call_google_vision_ocr for the image of page i: on every
failing path the function reports an error (or warning) and returns the empty
string; on success it returns the detected text. -/
def call_google_vision_ocr (bk : OcrBackends) (i : Nat) : Str × List Event :=
  match bk.gcv i with
  | .ok t => (t, [])
  | .fail m => ([], [Event.errorOcr gcvStr m])

/-- api_services.call_gpt4_image_api for the image of page i: returns the
extracted text with the usage dictionary, or the empty string with an empty
usage dictionary after reporting an error. -/
def call_gpt4_image_api (bk : OcrBackends) (i : Nat) : Str × Usage × List Event :=
  match bk.gpt4 i with
  | .ok t u => (t, u, [])
  | .fail m => ([], usage0, [Event.errorOcr gpt4Str m])

/-- api_services.call_mistral_ocr for the image of page i. -/
def call_mistral_ocr (bk : OcrBackends) (i : Nat) : Str × List Event :=
  match bk.mistral i with
  | .ok t => (t, [])
  | .fail m => ([], [Event.errorOcr mistralStr m])

/-- Mutable state of the page loop in
pdf_processing.extract_text_from_pdf_with_image_fallback. -/
structure ExtractState where
  full_text : Str
  usage : Usage
  gcv_count : Nat
  events : List Event
deriving DecidableEq, Repr

/-- The initial loop state. -/
def initState : ExtractState := ⟨[], usage0, 0, []⟩

/-- Body of the else branch (no embedded text) of the page loop in
pdf_processing.py, lines 58-88: dispatch on ocr_choice, skipping the page when
the backend credential is not truthy or the choice is unknown. -/
def ocrPagePP (sec : Secrets) (bk : OcrBackends) (choice : Str) (i : Nat)
    (st : ExtractState) : ExtractState :=
  let st1 := { st with events := st.events ++ [Event.infoNoText i choice] }
  if choice == gcvStr then
    let kr := get_google_vision_api_key sec
    let st2 := { st1 with events := st1.events ++ kr.2 }
    if !truthy kr.1 then st2
    else
      let st3 := { st2 with events := st2.events ++ [Event.netOcr gcvStr i] }
      let r := call_google_vision_ocr bk i
      { st3 with full_text := st3.full_text ++ r.1 ++ ['\n'],
                 gcv_count := st3.gcv_count + 1,
                 events := st3.events ++ r.2 }
  else if choice == gpt4Str then
    let kr := get_api_key sec
    let st2 := { st1 with events := st1.events ++ kr.2 }
    if !truthy kr.1 then st2
    else
      let st3 := { st2 with events := st2.events ++ [Event.netOcr gpt4Str i] }
      let r := call_gpt4_image_api bk i
      { st3 with full_text := st3.full_text ++ r.1 ++ ['\n'],
                 usage := addUsage st3.usage r.2.1,
                 events := st3.events ++ r.2.2 }
  else if choice == mistralStr then
    let kr := get_mistral_ocr_api_key sec
    let st2 := { st1 with events := st1.events ++ kr.2 }
    if !truthy kr.1 then st2
    else
      let st3 := { st2 with events := st2.events ++ [Event.netOcr mistralStr i] }
      let r := call_mistral_ocr bk i
      { st3 with full_text := st3.full_text ++ r.1 ++ ['\n'],
                 events := st3.events ++ r.2 }
  else
    { st1 with events := st1.events ++ [Event.warnUnknownChoice choice] }

/-- One iteration of the page loop in pdf_processing.py: embedded text is used
when non-empty after stripping, otherwise the OCR dispatch runs. -/
def processPagePP (sec : Secrets) (bk : OcrBackends) (choice : Str) (i : Nat)
    (p : PdfPage) (st : ExtractState) : ExtractState :=
  if pageHasText p then
    { st with full_text := st.full_text ++ p.extractedText.getD [] ++ ['\n'] }
  else
    ocrPagePP sec bk choice i st

/-- The page loop of pdf_processing.extract_text_from_pdf_with_image_fallback,
with i the 1-based index of the next page. -/
def extractLoopPP (sec : Secrets) (bk : OcrBackends) (choice : Str) :
    Nat → List PdfPage → ExtractState → ExtractState
  | _, [], st => st
  | i, p :: rest, st =>
      extractLoopPP sec bk choice (i + 1) rest (processPagePP sec bk choice i p st)

/-- pdf_processing.extract_text_from_pdf_with_image_fallback: returns the
stripped combined text, the accumulated usage dictionary, the Google Cloud
Vision page count, and the event trace. -/
def extract_text_from_pdf_with_image_fallback (sec : Secrets) (bk : OcrBackends)
    (pages : List PdfPage) (ocr_choice : Str) : Str × Usage × Nat × List Event :=
  match pages with
  | [] => ([], usage0, 0, [Event.errorNoPages])
  | _ =>
    let st := extractLoopPP sec bk ocr_choice 1 pages initState
    (strip st.full_text, st.usage, st.gcv_count, st.events)

/-- app.py get_api_key: the app variant additionally reports when the stored
key is falsy, and reports the retrieval exception when the key is absent. -/
def get_api_key_app (sec : Secrets) : Option Str × List Event :=
  match sec.gpt4oMini with
  | some k => (some k, if k.isEmpty then [Event.errorMissingKey gptKeyName] else [])
  | none => (none, [Event.errorKeyRetrieval gptKeyName])

/-- app.py get_google_vision_api_key, with the same app-specific reporting. -/
def get_google_vision_api_key_app (sec : Secrets) : Option Str × List Event :=
  match sec.googleVision with
  | some k => (some k, if k.isEmpty then [Event.errorMissingKey gvKeyName] else [])
  | none => (none, [Event.errorKeyRetrieval gvKeyName])

/-- Result of the page loop in app.py: the loop either finishes all pages or
aborts the document from inside the Google Cloud Vision branch (the early
return on a missing credential at app.py line 273). -/
inductive AppLoopResult where
  | done (st : ExtractState)
  | aborted (st : ExtractState)
deriving DecidableEq, Repr

/-- The page loop of app.py extract_text_from_pdf_with_image_fallback
(lines 263-281): Google Cloud Vision when selected, otherwise the GPT-4 image
API with the api_key already held by main. -/
def extractLoopApp (sec : Secrets) (bk : OcrBackends) (api_key : Str)
    (img_model : Str) : Nat → List PdfPage → ExtractState → AppLoopResult
  | _, [], st => .done st
  | i, p :: rest, st =>
    if pageHasText p then
      extractLoopApp sec bk api_key img_model (i + 1) rest
        { st with full_text := st.full_text ++ p.extractedText.getD [] ++ ['\n'] }
    else
      let st1 := { st with events := st.events ++ [Event.infoNoText i img_model] }
      if img_model == gcvStr then
        let kr := get_google_vision_api_key_app sec
        let st2 := { st1 with events := st1.events ++ kr.2 }
        if !truthy kr.1 then .aborted st2
        else
          let st3 := { st2 with events := st2.events ++ [Event.netOcr gcvStr i] }
          let r := call_google_vision_ocr bk i
          extractLoopApp sec bk api_key img_model (i + 1) rest
            { st3 with full_text := st3.full_text ++ r.1 ++ ['\n'],
                       gcv_count := st3.gcv_count + 1,
                       events := st3.events ++ r.2 }
      else
        let st2 := { st1 with events := st1.events ++ [Event.netOcr gpt4Str i] }
        let r := call_gpt4_image_api bk i
        extractLoopApp sec bk api_key img_model (i + 1) rest
          { st2 with full_text := st2.full_text ++ r.1 ++ ['\n'],
                     usage := addUsage st2.usage r.2.1,
                     events := st2.events ++ r.2.2 }

/-- app.py extract_text_from_pdf_with_image_fallback (lines 245-285).  On the
early return the function yields the empty string together with the usage and
count accumulated so far, discarding the text of already processed pages. -/
def extract_text_from_pdf_with_image_fallback_app (sec : Secrets)
    (bk : OcrBackends) (pages : List PdfPage) (api_key : Str) (img_model : Str) :
    Str × Usage × Nat × List Event :=
  match pages with
  | [] => ([], usage0, 0, [Event.errorNoPages])
  | _ =>
    match extractLoopApp sec bk api_key img_model 1 pages initState with
    | .done st => (strip st.full_text, st.usage, st.gcv_count, st.events)
    | .aborted st => ([], st.usage, st.gcv_count, st.events)

/-- JSON values, used for the parsed prediction object. -/
inductive Json where
  | null
  | bool (b : Bool)
  | num (n : Int)
  | str (s : Str)
  | arr (elems : List Json)
  | obj (fields : List (Str × Json))

/-- The message part of one entry of the choices array of the
structured-extraction response; content is absent on a missing key. -/
structure RespMsg where
  content : Option Str
deriving DecidableEq, Repr

/-- One entry of the choices array; message is absent on a missing key. -/
structure RespChoice where
  message : Option RespMsg
deriving DecidableEq, Repr

/-- The structured-extraction API response as consumed by app.py main:
the choices array (absent on a missing key) and the usage dictionary
(response.get with an empty-dictionary default). -/
structure Resp where
  choices : Option (List RespChoice)
  usage : Usage
deriving DecidableEq, Repr

/-- The Python exceptions that the subscript chain
response[choices][0][message][content] can raise. -/
inductive PyErr where
  | keyError
  | indexError
deriving DecidableEq, Repr

/-- The subscript chain of app.py line 328: a missing key raises KeyError,
while subscripting an empty choices list with [0] raises IndexError. -/
def getMessageContent (r : Resp) : Except PyErr Str :=
  match r.choices with
  | none => .error .keyError
  | some [] => .error .indexError
  | some (c :: _) =>
    match c.message with
    | none => .error .keyError
    | some m =>
      match m.content with
      | none => .error .keyError
      | some s => .ok s

/-- app.py line 451: cents charged for the GPT-4o-mini prompt tokens.
Monetary arithmetic is modelled exactly over the rationals. -/
def cost_prompt_cents (prompt_tokens : Nat) : ℚ :=
  ((prompt_tokens : ℚ) / 1000000) * 0.15 * 100

/-- app.py line 452: cents charged for the GPT-4o-mini completion tokens. -/
def cost_completion_cents (completion_tokens : Nat) : ℚ :=
  ((completion_tokens : ℚ) / 1000000) * 0.60 * 100

/-- app.py line 453: the text-based extraction subtotal. -/
def text_cost_cents (prompt_tokens completion_tokens : Nat) : ℚ :=
  cost_prompt_cents prompt_tokens + cost_completion_cents completion_tokens

/-- app.py lines 467-476: the image-based extraction subtotal, a per-page rate
for Google Cloud Vision and token-based rates otherwise. -/
def image_cost_cents (img_model : Str) (gcv_count : Nat) (image_usage : Usage) : ℚ :=
  if img_model == gcvStr then (gcv_count : ℚ) * 0.15
  else (image_usage.prompt_tokens : ℚ) * 0.003 +
       (image_usage.completion_tokens : ℚ) * 0.006

/-- app.py line 488: the displayed combined cost. -/
def combined_cost_cents (img_model : Str) (gcv_count : Nat)
    (image_usage text_usage : Usage) : ℚ :=
  text_cost_cents text_usage.prompt_tokens text_usage.completion_tokens +
    image_cost_cents img_model gcv_count image_usage

/-- Outcome of one request handled by app.py main: each aborted constructor is
one of the early returns, uncaughtIndexError is the IndexError that the except
clause at line 330 does not catch, and rendered carries the parsed prediction
together with the displayed combined cost. -/
inductive ReqOutcome where
  | abortedNoApiKey
  | abortedEmptyFile
  | abortedNoText
  | abortedApiError
  | abortedBadJson (raw : Resp)
  | uncaughtIndexError (raw : Resp)
  | rendered (prediction : Json) (combinedCostCents : ℚ)

/-- app.py main (lines 293-489), for one upload.  fileBytes is none for an
empty or unreadable upload; api is the oracle for call_gpt4o_mini_text_api
(none models the reported OpenAIError); parse is the oracle for json.loads
(none models a JSONDecodeError). -/
def mainApp (sec : Secrets) (bk : OcrBackends) (img_model : Str)
    (fileBytes : Option (List PdfPage)) (api : Str → Option Resp)
    (parse : Str → Option Json) : ReqOutcome × List Event :=
  let kr := get_api_key_app sec
  if !truthy kr.1 then (.abortedNoApiKey, kr.2)
  else
    match fileBytes with
    | none => (.abortedEmptyFile, kr.2 ++ [Event.errorEmptyFile])
    | some pages =>
      let er := extract_text_from_pdf_with_image_fallback_app sec bk pages
        (kr.1.getD []) img_model
      let evs := kr.2 ++ er.2.2.2
      if er.1.isEmpty then (.abortedNoText, evs ++ [Event.warnNoText])
      else
        let evs := evs ++ [Event.netExtraction]
        match api er.1 with
        | none => (.abortedApiError, evs ++ [Event.errorApi])
        | some r =>
          match getMessageContent r with
          | .error .indexError => (.uncaughtIndexError r, evs)
          | .error .keyError => (.abortedBadJson r, evs ++ [Event.errorBadJson])
          | .ok content =>
            match parse content with
            | none => (.abortedBadJson r, evs ++ [Event.errorBadJson])
            | some prediction =>
              (.rendered prediction
                (combined_cost_cents img_model er.2.2.1 er.2.1 r.usage), evs)

/-- The six style attributes append_row_to_excel copies from the previous row
(font, border, fill, number_format, protection, alignment), abstracted. -/
structure XStyle where
  font : Nat
  border : Nat
  fill : Nat
  number_format : Str
  protection : Nat
  alignment : Nat
deriving DecidableEq, Repr

/-- The default style of a freshly created cell. -/
def defaultXStyle : XStyle := ⟨0, 0, 0, [], 0, 0⟩

/-- One worksheet cell: its value and its style; has_style mirrors the
openpyxl property of the same name. -/
structure XCell where
  value : Str
  has_style : Bool
  style : XStyle
deriving DecidableEq, Repr

/-- A cell that has never been written, as materialized by ws.cell for a
coordinate outside the stored area. -/
def blankXCell : XCell := ⟨[], false, defaultXStyle⟩

/-- Python dict.get over the row_data dictionary (string keys and values). -/
def lookupStr (k : Str) : List (Str × Str) → Option Str
  | [] => none
  | (k', v) :: rest => if k = k' then some v else lookupStr k rest

/-- The style-copy pass of append_row_to_excel (excel_utils.py lines 59-68):
walk the appended row, and for each column copy the style of the cell in the
previous last row when that cell has a style. -/
def copyRowStyles : List XCell → List XCell → List XCell
  | _, [] => []
  | prev, cell :: rest =>
    let prev_cell := prev.headD blankXCell
    let styled :=
      if prev_cell.has_style then
        { cell with has_style := true, style := prev_cell.style }
      else cell
    styled :: copyRowStyles prev.tail rest

/-- excel_utils.append_row_to_excel on an already existing workbook (the
load_workbook branch succeeds): the worksheet is a list of rows, row 1 being
the header.  The new row takes, for each header column, row_data.get(col, "");
the style of the previous last row is copied onto it when that row is a data
row (index at least 2). -/
def append_row_to_excel (row_data : List (Str × Str)) (ws : List (List XCell)) :
    List (List XCell) :=
  let header_row : List Str := (ws.headD []).map (fun c => c.value)
  let new_row : List XCell := header_row.map (fun col =>
    { value := (lookupStr col row_data).getD [], has_style := false,
      style := defaultXStyle })
  let previous_last_row_idx := ws.length
  let styled_row :=
    if 2 ≤ previous_last_row_idx then
      copyRowStyles (ws.getD (previous_last_row_idx - 1) []) new_row
    else new_row
  ws ++ [styled_row]

/-- The eleven recognized ExtractionResult keys (spec section 3 and the
prediction.get calls of app.py lines 339-431). -/
def bol_keys : List Str :=
  ["bill_of_lading_number".toList, "shipper".toList, "consignee".toList,
   "port_of_loading".toList, "port_of_discharge".toList,
   "notify_parties".toList, "port_of_discharge_agent".toList,
   "vessel_and_voyage_no".toList, "booking_ref".toList,
   "number_of_containers".toList, "container_info".toList]

/-- Lookup of a key in a parsed JSON object (Python dict access; dict keys are
unique, so the first match is the value). -/
def olookup (k : Str) : List (Str × Json) → Option Json
  | [] => none
  | (k', v) :: rest => if k = k' then some v else olookup k rest

/-- Modelled from the spec: the repository never serializes an
ExtractionResult back to JSON, so the record type follows spec section 3
(all fields optional, holding the JSON values of the recognized keys). -/
structure ExtractionResult where
  bill_of_lading_number : Option Json
  shipper : Option Json
  consignee : Option Json
  port_of_loading : Option Json
  port_of_discharge : Option Json
  notify_parties : Option Json
  port_of_discharge_agent : Option Json
  vessel_and_voyage_no : Option Json
  booking_ref : Option Json
  number_of_containers : Option Json
  container_info : Option Json

/-- Building an ExtractionResult from a parsed JSON object: each field is
prediction.get(key), exactly as app.py reads the prediction (lines 339-431). -/
def buildExtractionResult (o : List (Str × Json)) : ExtractionResult where
  bill_of_lading_number := olookup ("bill_of_lading_number".toList) o
  shipper := olookup ("shipper".toList) o
  consignee := olookup ("consignee".toList) o
  port_of_loading := olookup ("port_of_loading".toList) o
  port_of_discharge := olookup ("port_of_discharge".toList) o
  notify_parties := olookup ("notify_parties".toList) o
  port_of_discharge_agent := olookup ("port_of_discharge_agent".toList) o
  vessel_and_voyage_no := olookup ("vessel_and_voyage_no".toList) o
  booking_ref := olookup ("booking_ref".toList) o
  number_of_containers := olookup ("number_of_containers".toList) o
  container_info := olookup ("container_info".toList) o

/-- Modelled from the spec: serialization of an ExtractionResult, missing in
the repository.  Following the prompt contract (null for missing fields), it
emits every recognized key, with null for an absent field. -/
def serializeExtractionResult (r : ExtractionResult) : List (Str × Json) :=
  [("bill_of_lading_number".toList, r.bill_of_lading_number.getD Json.null),
   ("shipper".toList, r.shipper.getD Json.null),
   ("consignee".toList, r.consignee.getD Json.null),
   ("port_of_loading".toList, r.port_of_loading.getD Json.null),
   ("port_of_discharge".toList, r.port_of_discharge.getD Json.null),
   ("notify_parties".toList, r.notify_parties.getD Json.null),
   ("port_of_discharge_agent".toList, r.port_of_discharge_agent.getD Json.null),
   ("vessel_and_voyage_no".toList, r.vessel_and_voyage_no.getD Json.null),
   ("booking_ref".toList, r.booking_ref.getD Json.null),
   ("number_of_containers".toList, r.number_of_containers.getD Json.null),
   ("container_info".toList, r.container_info.getD Json.null)]

/-- Modelled from the spec: build, serialize and re-parse.  Printing a JSON
object to text and parsing it back is modelled as the identity on the object
representation, so the round trip of the spec is serialize after build. -/
def roundtripExtractionResult (o : List (Str × Json)) : List (Str × Json) :=
  serializeExtractionResult (buildExtractionResult o)

/-- Two parsed JSON objects are identical in the Python sense (dict equality):
every key maps to the same value in both. -/
def objEqv (a b : List (Str × Json)) : Prop :=
  ∀ k : Str, olookup k a = olookup k b

/-- The text the selected OCR backend wrapper returns for page i: the service
output on success, the empty string on a failing call. -/
def ocrText (bk : OcrBackends) (choice : Str) (i : Nat) : Str :=
  if choice == gcvStr then (call_google_vision_ocr bk i).1
  else if choice == gpt4Str then (call_gpt4_image_api bk i).1
  else (call_mistral_ocr bk i).1

/-- The per-page output of the reconciliation pass for page i: the embedded
text when non-empty after stripping, otherwise the selected backend output. -/
def pageOutput (bk : OcrBackends) (choice : Str) (i : Nat) (p : PdfPage) : Str :=
  if pageHasText p then p.extractedText.getD []
  else ocrText bk choice i

/-- The per-page outputs of a page list whose first page has index i. -/
def pageOutputs (bk : OcrBackends) (choice : Str) : Nat → List PdfPage → List Str
  | _, [] => []
  | i, p :: rest => pageOutput bk choice i p :: pageOutputs bk choice (i + 1) rest

/-- The usage the loop accumulates for page i. -/
def pageUsagePP (bk : OcrBackends) (choice : Str) (i : Nat) (p : PdfPage) : Usage :=
  if pageHasText p then usage0
  else if choice == gpt4Str then (call_gpt4_image_api bk i).2.1
  else usage0

/-- The usage the loop accumulates over a page list starting at index i. -/
def usageSpecPP (bk : OcrBackends) (choice : Str) : Nat → List PdfPage → Usage
  | _, [] => usage0
  | i, p :: rest =>
    addUsage (pageUsagePP bk choice i p) (usageSpecPP bk choice (i + 1) rest)

/-- The contribution of one page to gcv_page_count. -/
def pageGcvInc (choice : Str) (p : PdfPage) : Nat :=
  if pageHasText p then 0
  else if choice == gcvStr then 1
  else 0

/-- gcv_page_count accumulated over a page list. -/
def gcvCountSpecPP (choice : Str) : List PdfPage → Nat
  | [] => 0
  | p :: rest => pageGcvInc choice p + gcvCountSpecPP choice rest

/-- The events one page emits in the pdf_processing loop, on the nominal path
where the selected backend and its credential are available. -/
def pageEventsPP (bk : OcrBackends) (choice : Str) (i : Nat) (p : PdfPage) :
    List Event :=
  if pageHasText p then []
  else if choice == gcvStr then
    [Event.infoNoText i choice, Event.netOcr gcvStr i] ++ (call_google_vision_ocr bk i).2
  else if choice == gpt4Str then
    [Event.infoNoText i choice, Event.netOcr gpt4Str i] ++ (call_gpt4_image_api bk i).2.2
  else
    [Event.infoNoText i choice, Event.netOcr mistralStr i] ++ (call_mistral_ocr bk i).2

/-- The events the pdf_processing loop emits over a page list starting at
index i, on the nominal path. -/
def eventsSpecPP (bk : OcrBackends) (choice : Str) : Nat → List PdfPage → List Event
  | _, [] => []
  | i, p :: rest =>
    pageEventsPP bk choice i p ++ eventsSpecPP bk choice (i + 1) rest

/-- The ocr_choice value is one of the three backends the code dispatches on. -/
def validChoice (choice : Str) : Prop :=
  choice = gcvStr ∨ choice = gpt4Str ∨ choice = mistralStr

/-- The credential of the selected backend is available and truthy. -/
def choiceKeyUsable (sec : Secrets) (choice : Str) : Bool :=
  if choice == gcvStr then truthy (get_google_vision_api_key sec).1
  else if choice == gpt4Str then truthy (get_api_key sec).1
  else truthy (get_mistral_ocr_api_key sec).1

/-- Number of OCR network requests recorded for page j. -/
def netOcrCountAt (evs : List Event) (j : Nat) : Nat :=
  (evs.filter (fun e =>
    match e with
    | .netOcr _ k => k == j
    | _ => false)).length

/-- An event that stands for an outgoing network request. -/
def isNetEvent : Event → Bool
  | .netOcr _ _ => true
  | .netExtraction => true
  | _ => false

/-- A report that the Google Cloud Vision credential could not be obtained. -/
def isGcvKeyReport : Event → Bool
  | .errorMissingKey w => w == gvKeyName
  | .errorKeyRetrieval w => w == gvKeyName
  | _ => false

/-- A report that the GPT-4o-mini credential could not be obtained. -/
def isGptKeyReport : Event → Bool
  | .errorMissingKey w => w == gptKeyName
  | .errorKeyRetrieval w => w == gptKeyName
  | _ => false

/-- The message of the failing OCR call for page i under the given choice,
when that call fails. -/
def ocrFailMsg (bk : OcrBackends) (choice : Str) (i : Nat) : Option Str :=
  if choice == gcvStr then
    match bk.gcv i with
    | .fail m => some m
    | _ => none
  else if choice == gpt4Str then
    match bk.gpt4 i with
    | .fail m => some m
    | _ => none
  else
    match bk.mistral i with
    | .fail m => some m
    | _ => none

theorem addUsage_usage0_right (a : Usage) : addUsage a usage0 = a := by
  cases a; simp [addUsage, usage0]

theorem addUsage_usage0_left (a : Usage) : addUsage usage0 a = a := by
  cases a; simp [addUsage, usage0]

theorem addUsage_assoc (a b c : Usage) :
    addUsage (addUsage a b) c = addUsage a (addUsage b c) := by
  cases a; cases b; cases c; simp [addUsage]; omega

theorem rstrip_append_nl (s : Str) : rstrip (s ++ ['\n']) = rstrip s := by
  simp [rstrip, List.dropWhile_cons, isPySpace]

theorem strip_append_nl (s : Str) : strip (s ++ ['\n']) = strip s := by
  simp [strip, rstrip_append_nl]

theorem joinNl_eq_sepNl_append (xs : List Str) (h : xs ≠ []) :
    joinNl xs = sepNl xs ++ ['\n'] := by
  induction xs with
  | nil => simp at h
  | cons t rest ih =>
    cases rest with
    | nil => simp [joinNl, sepNl]
    | cons u rest' =>
      rw [show joinNl (t :: u :: rest') = t ++ '\n' :: joinNl (u :: rest') from rfl,
        ih (by simp), show sepNl (t :: u :: rest') = t ++ '\n' :: sepNl (u :: rest') from rfl]
      simp

theorem strip_joinNl_eq_strip_sepNl (xs : List Str) :
    strip (joinNl xs) = strip (sepNl xs) := by
  cases xs with
  | nil => rfl
  | cons t rest =>
    rw [joinNl_eq_sepNl_append _ (by simp), strip_append_nl]

theorem gcv_ne_gpt4 : (gcvStr == gpt4Str) = false := by decide

theorem gcv_ne_gpt4_p : gcvStr ≠ gpt4Str := by decide

theorem gcv_ne_mistral_p : gcvStr ≠ mistralStr := by decide

theorem gpt4_ne_gcv_p : gpt4Str ≠ gcvStr := by decide

theorem gpt4_ne_mistral_p : gpt4Str ≠ mistralStr := by decide

theorem mistral_ne_gcv_p : mistralStr ≠ gcvStr := by decide

theorem mistral_ne_gpt4_p : mistralStr ≠ gpt4Str := by decide

theorem gcv_ne_mistral : (gcvStr == mistralStr) = false := by decide

theorem gpt4_ne_gcv : (gpt4Str == gcvStr) = false := by decide

theorem gpt4_ne_mistral : (gpt4Str == mistralStr) = false := by decide

theorem mistral_ne_gcv : (mistralStr == gcvStr) = false := by decide

theorem mistral_ne_gpt4 : (mistralStr == gpt4Str) = false := by decide

theorem processPagePP_eq (sec : Secrets) (bk : OcrBackends) (choice : Str)
    (hv : validChoice choice) (hk : choiceKeyUsable sec choice = true)
    (i : Nat) (p : PdfPage) (st : ExtractState) :
    processPagePP sec bk choice i p st =
      { full_text := st.full_text ++ pageOutput bk choice i p ++ ['\n'],
        usage := addUsage st.usage (pageUsagePP bk choice i p),
        gcv_count := st.gcv_count + pageGcvInc choice p,
        events := st.events ++ pageEventsPP bk choice i p } := by
  cases hp : pageHasText p with
  | true =>
    cases st with
    | mk ft u g e =>
      simp [processPagePP, pageOutput, pageUsagePP, pageGcvInc, pageEventsPP, hp,
        addUsage_usage0_right]
  | false =>
    rcases hv with h | h | h <;> subst h
    · cases hgv : sec.googleVision with
      | none =>
        exfalso
        simp [choiceKeyUsable, get_google_vision_api_key, hgv, truthy] at hk
      | some k =>
        have hk2 : truthy (some k) = true := by
          simpa [choiceKeyUsable, get_google_vision_api_key, hgv] using hk
        cases st with
        | mk ft u g e =>
          cases hc : bk.gcv i with
          | ok t =>
            simp [processPagePP, hp, ocrPagePP, get_google_vision_api_key, hgv, hk2,
              call_google_vision_ocr, hc, pageOutput, ocrText, pageUsagePP,
              pageGcvInc, pageEventsPP, addUsage_usage0_right, gcv_ne_gpt4_p, gcv_ne_mistral_p, List.append_assoc]
          | fail m =>
            simp [processPagePP, hp, ocrPagePP, get_google_vision_api_key, hgv, hk2,
              call_google_vision_ocr, hc, pageOutput, ocrText, pageUsagePP,
              pageGcvInc, pageEventsPP, addUsage_usage0_right, gcv_ne_gpt4_p, gcv_ne_mistral_p, List.append_assoc]
    · cases hgp : sec.gpt4oMini with
      | none =>
        exfalso
        simp [choiceKeyUsable, get_api_key, hgp, truthy, gpt4_ne_gcv] at hk
      | some k =>
        have hk2 : truthy (some k) = true := by
          simpa [choiceKeyUsable, get_api_key, hgp, gpt4_ne_gcv] using hk
        cases st with
        | mk ft u g e =>
          cases hc : bk.gpt4 i with
          | ok t uu =>
            simp [processPagePP, hp, ocrPagePP, get_api_key, hgp, hk2,
              call_gpt4_image_api, hc, pageOutput, ocrText, pageUsagePP,
              pageGcvInc, pageEventsPP, addUsage_usage0_right, gpt4_ne_gcv, gpt4_ne_gcv_p, gpt4_ne_mistral_p,
              List.append_assoc]
          | fail m =>
            simp [processPagePP, hp, ocrPagePP, get_api_key, hgp, hk2,
              call_gpt4_image_api, hc, pageOutput, ocrText, pageUsagePP,
              pageGcvInc, pageEventsPP, addUsage_usage0_right, gpt4_ne_gcv, gpt4_ne_gcv_p, gpt4_ne_mistral_p,
              List.append_assoc]
    · cases hgm : sec.mistralOcr with
      | none =>
        exfalso
        simp [choiceKeyUsable, get_mistral_ocr_api_key, hgm, truthy, mistral_ne_gcv,
          mistral_ne_gpt4] at hk
      | some k =>
        have hk2 : truthy (some k) = true := by
          simpa [choiceKeyUsable, get_mistral_ocr_api_key, hgm, mistral_ne_gcv,
            mistral_ne_gpt4] using hk
        cases st with
        | mk ft u g e =>
          cases hc : bk.mistral i with
          | ok t =>
            simp [processPagePP, hp, ocrPagePP, get_mistral_ocr_api_key, hgm, hk2,
              call_mistral_ocr, hc, pageOutput, ocrText, pageUsagePP,
              pageGcvInc, pageEventsPP, addUsage_usage0_right, mistral_ne_gcv, mistral_ne_gcv_p,
              mistral_ne_gpt4, mistral_ne_gpt4_p, List.append_assoc]
          | fail m =>
            simp [processPagePP, hp, ocrPagePP, get_mistral_ocr_api_key, hgm, hk2,
              call_mistral_ocr, hc, pageOutput, ocrText, pageUsagePP,
              pageGcvInc, pageEventsPP, addUsage_usage0_right, mistral_ne_gcv, mistral_ne_gcv_p,
              mistral_ne_gpt4, mistral_ne_gpt4_p, List.append_assoc]

theorem extractLoopPP_eq (sec : Secrets) (bk : OcrBackends) (choice : Str)
    (hv : validChoice choice) (hk : choiceKeyUsable sec choice = true)
    (pages : List PdfPage) : ∀ (i : Nat) (st : ExtractState),
    extractLoopPP sec bk choice i pages st =
      { full_text := st.full_text ++ joinNl (pageOutputs bk choice i pages),
        usage := addUsage st.usage (usageSpecPP bk choice i pages),
        gcv_count := st.gcv_count + gcvCountSpecPP choice pages,
        events := st.events ++ eventsSpecPP bk choice i pages } := by
  induction pages with
  | nil =>
    intro i st
    cases st with
    | mk ft u g e =>
      simp [extractLoopPP, joinNl, pageOutputs, usageSpecPP, gcvCountSpecPP,
        eventsSpecPP, addUsage_usage0_right]
  | cons p rest ih =>
    intro i st
    rw [show extractLoopPP sec bk choice i (p :: rest) st =
          extractLoopPP sec bk choice (i + 1) rest (processPagePP sec bk choice i p st)
        from rfl,
      ih (i + 1), processPagePP_eq sec bk choice hv hk i p st]
    simp [pageOutputs, usageSpecPP, gcvCountSpecPP, eventsSpecPP, joinNl,
      List.append_assoc, addUsage_assoc, Nat.add_assoc]

theorem gcvCountSpecPP_gcv (pages : List PdfPage) :
    gcvCountSpecPP gcvStr pages = pages.countP (fun p => !pageHasText p) := by
  induction pages with
  | nil => rfl
  | cons p rest ih =>
    rw [show gcvCountSpecPP gcvStr (p :: rest) =
          pageGcvInc gcvStr p + gcvCountSpecPP gcvStr rest from rfl,
      ih, List.countP_cons]
    cases hp : pageHasText p <;> (simp [pageGcvInc, hp]; try omega)

theorem gcvCountSpecPP_not_gcv (choice : Str) (hne : choice ≠ gcvStr)
    (pages : List PdfPage) : gcvCountSpecPP choice pages = 0 := by
  induction pages with
  | nil => rfl
  | cons p rest ih =>
    rw [show gcvCountSpecPP choice (p :: rest) =
          pageGcvInc choice p + gcvCountSpecPP choice rest from rfl, ih]
    cases hp : pageHasText p <;> simp [pageGcvInc, hp, hne]

theorem extractLoopPP_allText (sec : Secrets) (bk : OcrBackends) (choice : Str)
    (pages : List PdfPage) (h : ∀ p ∈ pages, pageHasText p = true) :
    ∀ (i : Nat) (st : ExtractState),
    extractLoopPP sec bk choice i pages st =
      { st with full_text :=
          st.full_text ++ joinNl (pages.map (fun p => p.extractedText.getD [])) } := by
  induction pages with
  | nil => intro i st; cases st; simp [extractLoopPP, joinNl]
  | cons p rest ih =>
    intro i st
    have hp : pageHasText p = true := h p (by simp)
    rw [show extractLoopPP sec bk choice i (p :: rest) st =
          extractLoopPP sec bk choice (i + 1) rest (processPagePP sec bk choice i p st)
        from rfl,
      ih (fun q hq => h q (by simp [hq])) (i + 1)]
    cases st with
    | mk ft u g e => simp [processPagePP, hp, joinNl, List.append_assoc]

theorem extractLoopApp_allText (sec : Secrets) (bk : OcrBackends) (api_key : Str)
    (img_model : Str) (pages : List PdfPage)
    (h : ∀ p ∈ pages, pageHasText p = true) :
    ∀ (i : Nat) (st : ExtractState),
    extractLoopApp sec bk api_key img_model i pages st =
      .done { st with full_text :=
          st.full_text ++ joinNl (pages.map (fun p => p.extractedText.getD [])) } := by
  induction pages with
  | nil => intro i st; cases st; simp [extractLoopApp, joinNl]
  | cons p rest ih =>
    intro i st
    have hp : pageHasText p = true := h p (by simp)
    have step : extractLoopApp sec bk api_key img_model i (p :: rest) st =
        extractLoopApp sec bk api_key img_model (i + 1) rest
          { st with full_text := st.full_text ++ p.extractedText.getD [] ++ ['\n'] } := by
      simp only [extractLoopApp]
      simp [hp]
    rw [step, ih (fun q hq => h q (by simp [hq])) (i + 1)]
    cases st with
    | mk ft u g e => simp [joinNl, List.append_assoc]

/-- A secret store holding truthy values for all three credentials. -/
def secAll : Secrets := ⟨some ("K1".toList), some ("K2".toList), some ("K3".toList)⟩

/-- Backends whose calls all succeed, returning a fixed text. -/
def bkAllOk : OcrBackends :=
  ⟨fun _ => .ok ("OCRTEXT".toList),
   fun _ => .ok ("OCRTEXT".toList) ⟨5, 7, 12⟩,
   fun _ => .ok ("OCRTEXT".toList)⟩

/-- A page without embedded text. -/
def blankPage : PdfPage := ⟨none⟩

/-- A page carrying the embedded text of the spec scenario. -/
def acmePage : PdfPage := ⟨some ("SHIPPER: ACME".toList)⟩

/-- Shared characterization of the combined text of the pdf_processing
reconciliation pass on the nominal path. -/
theorem extractPP_combined_eq (sec : Secrets) (bk : OcrBackends)
    (pages : List PdfPage) (choice : Str) (hv : validChoice choice)
    (hk : choiceKeyUsable sec choice = true) :
    (extract_text_from_pdf_with_image_fallback sec bk pages choice).1 =
      strip (sepNl (pageOutputs bk choice 1 pages)) := by
  cases pages with
  | nil => rfl
  | cons p rest =>
    show strip (extractLoopPP sec bk choice 1 (p :: rest) initState).full_text = _
    rw [extractLoopPP_eq sec bk choice hv hk (p :: rest) 1 initState]
    show strip ([] ++ joinNl (pageOutputs bk choice 1 (p :: rest))) = _
    rw [List.nil_append, strip_joinNl_eq_strip_sepNl]

/-- C1: for every PDF, when the selected OCR backend is one of the three
dispatched choices and its credential is available, the combined text returned
by extract_text_from_pdf_with_image_fallback is the per-page outputs (embedded
text when non-empty after stripping, otherwise the selected backend output,
which is empty on a failed call) concatenated in page order, separated by
newlines, with surrounding whitespace stripped from the final block. -/
theorem c1_combined_text (sec : Secrets) (bk : OcrBackends) (pages : List PdfPage)
    (choice : Str) (hv : validChoice choice) (hk : choiceKeyUsable sec choice = true) :
    (extract_text_from_pdf_with_image_fallback sec bk pages choice).1 =
      strip (sepNl (pageOutputs bk choice 1 pages)) :=
  extractPP_combined_eq sec bk pages choice hv hk

/-- Witness for C1 at the spec scenario: a two-page PDF, page 1 with embedded
text, page 2 image-only, Google Cloud Vision selected with its key present. -/
theorem c1_combined_text_witness :
    validChoice gcvStr ∧ choiceKeyUsable secAll gcvStr = true ∧
    (extract_text_from_pdf_with_image_fallback secAll bkAllOk
        [acmePage, blankPage] gcvStr).1 =
      strip (sepNl (pageOutputs bkAllOk gcvStr 1 [acmePage, blankPage])) :=
  ⟨Or.inl rfl, by decide,
    c1_combined_text secAll bkAllOk [acmePage, blankPage] gcvStr (Or.inl rfl) (by decide)⟩

/-- C2 is false as stated: with the GPT-4 backend selected (credential
present, call succeeding), a one-page PDF whose only page lacks embedded text
has one fallback page, yet the returned fallback-page count is 0 — the counter
only tracks pages sent to Google Cloud Vision. -/
theorem c2_count_counterexample :
    (extract_text_from_pdf_with_image_fallback secAll bkAllOk [blankPage]
        gpt4Str).2.2.1 = 0 ∧
    List.countP (fun p => !pageHasText p) [blankPage] = 1 :=
  ⟨rfl, rfl⟩

/-- C2 as amended: the returned count equals the number of pages whose
embedded text is empty or whitespace-only when the selected backend is Google
Cloud Vision (with its credential available); for the other backends it is 0. -/
theorem c2_gcv_fallback_count (sec : Secrets) (bk : OcrBackends)
    (pages : List PdfPage) (choice : Str) (hv : validChoice choice)
    (hk : choiceKeyUsable sec choice = true) :
    (extract_text_from_pdf_with_image_fallback sec bk pages choice).2.2.1 =
      if choice = gcvStr then pages.countP (fun p => !pageHasText p) else 0 := by
  cases pages with
  | nil =>
    show 0 = _
    split <;> simp
  | cons p rest =>
    show (extractLoopPP sec bk choice 1 (p :: rest) initState).gcv_count = _
    rw [extractLoopPP_eq sec bk choice hv hk (p :: rest) 1 initState]
    show 0 + gcvCountSpecPP choice (p :: rest) = _
    rcases hv with h | h | h <;> subst h
    · rw [if_pos rfl, gcvCountSpecPP_gcv, Nat.zero_add]
    · rw [if_neg gpt4_ne_gcv_p, gcvCountSpecPP_not_gcv gpt4Str gpt4_ne_gcv_p, Nat.zero_add]
    · rw [if_neg mistral_ne_gcv_p, gcvCountSpecPP_not_gcv mistralStr mistral_ne_gcv_p,
        Nat.zero_add]

/-- Witness for the amended C2 at the spec scenario with Google Cloud Vision
selected: one of the two pages is a fallback page and the count is 1. -/
theorem c2_gcv_fallback_count_witness :
    validChoice gcvStr ∧ choiceKeyUsable secAll gcvStr = true ∧
    (extract_text_from_pdf_with_image_fallback secAll bkAllOk
        [acmePage, blankPage] gcvStr).2.2.1 =
      (if gcvStr = gcvStr then
        List.countP (fun p => !pageHasText p) [acmePage, blankPage] else 0) :=
  ⟨Or.inl rfl, by decide,
    c2_gcv_fallback_count secAll bkAllOk [acmePage, blankPage] gcvStr
      (Or.inl rfl) (by decide)⟩

/-- C6: for every PDF all of whose pages carry embedded text that is non-empty
after stripping, both variants of the reconciliation pass invoke no OCR
backend (no OCR network request is recorded), return a fallback-page count of
0 and an all-zero usage counter. -/
theorem c6_embedded_only_no_ocr (sec : Secrets) (bk : OcrBackends)
    (pages : List PdfPage) (choice api_key img_model : Str)
    (h : ∀ p ∈ pages, pageHasText p = true) :
    ((extract_text_from_pdf_with_image_fallback sec bk pages choice).2.2.1 = 0 ∧
     (extract_text_from_pdf_with_image_fallback sec bk pages choice).2.1 = usage0 ∧
     ∀ e ∈ (extract_text_from_pdf_with_image_fallback sec bk pages choice).2.2.2,
        isNetEvent e = false) ∧
    ((extract_text_from_pdf_with_image_fallback_app sec bk pages api_key
        img_model).2.2.1 = 0 ∧
     (extract_text_from_pdf_with_image_fallback_app sec bk pages api_key
        img_model).2.1 = usage0 ∧
     ∀ e ∈ (extract_text_from_pdf_with_image_fallback_app sec bk pages api_key
        img_model).2.2.2, isNetEvent e = false) := by
  cases pages with
  | nil =>
    refine ⟨⟨rfl, rfl, ?_⟩, ⟨rfl, rfl, ?_⟩⟩ <;>
      · intro e he
        simp [extract_text_from_pdf_with_image_fallback,
          extract_text_from_pdf_with_image_fallback_app] at he
        subst he
        rfl
  | cons p rest =>
    have h1 := extractLoopPP_allText sec bk choice (p :: rest) h 1 initState
    have h2 := extractLoopApp_allText sec bk api_key img_model (p :: rest) h 1 initState
    have hpp : extract_text_from_pdf_with_image_fallback sec bk (p :: rest) choice =
        (strip (joinNl ((p :: rest).map (fun q => q.extractedText.getD []))),
         usage0, 0, []) := by
      show (strip (extractLoopPP sec bk choice 1 (p :: rest) initState).full_text,
        (extractLoopPP sec bk choice 1 (p :: rest) initState).usage,
        (extractLoopPP sec bk choice 1 (p :: rest) initState).gcv_count,
        (extractLoopPP sec bk choice 1 (p :: rest) initState).events) = _
      rw [h1]
      rfl
    have happ : extract_text_from_pdf_with_image_fallback_app sec bk (p :: rest)
        api_key img_model =
        (strip (joinNl ((p :: rest).map (fun q => q.extractedText.getD []))),
         usage0, 0, []) := by
      simp only [extract_text_from_pdf_with_image_fallback_app]
      rw [h2]
      rfl
    rw [hpp, happ]
    refine ⟨⟨rfl, rfl, ?_⟩, ⟨rfl, rfl, ?_⟩⟩ <;> · intro e he; simp at he

/-- Witness for C6: a two-page PDF with embedded text on both pages. -/
theorem c6_embedded_only_no_ocr_witness :
    (∀ p ∈ [acmePage, acmePage], pageHasText p = true) ∧
    (extract_text_from_pdf_with_image_fallback secAll bkAllOk
        [acmePage, acmePage] gcvStr).2.2.1 = 0 ∧
    (extract_text_from_pdf_with_image_fallback secAll bkAllOk
        [acmePage, acmePage] gcvStr).2.1 = usage0 :=
  ⟨by decide,
   (c6_embedded_only_no_ocr secAll bkAllOk [acmePage, acmePage] gcvStr
      ("K1".toList) gcvStr (by decide)).1.1,
   (c6_embedded_only_no_ocr secAll bkAllOk [acmePage, acmePage] gcvStr
      ("K1".toList) gcvStr (by decide)).1.2.1⟩

theorem netOcrCountAt_append (a b : List Event) (j : Nat) :
    netOcrCountAt (a ++ b) j = netOcrCountAt a j + netOcrCountAt b j := by
  simp [netOcrCountAt, List.filter_append]

theorem netOcrCountAt_pageEventsPP (bk : OcrBackends) (choice : Str)
    (hv : validChoice choice) (i j : Nat) (p : PdfPage) :
    netOcrCountAt (pageEventsPP bk choice i p) j =
      if pageHasText p then 0 else if i = j then 1 else 0 := by
  cases hp : pageHasText p with
  | true => simp [pageEventsPP, hp, netOcrCountAt]
  | false =>
    rcases hv with h | h | h <;> subst h
    · by_cases hij : i = j
      · subst hij
        cases hc : bk.gcv i <;>
          simp [pageEventsPP, hp, netOcrCountAt, call_google_vision_ocr, hc]
      · cases hc : bk.gcv i <;>
          simp [pageEventsPP, hp, netOcrCountAt, call_google_vision_ocr, hc, hij]
    · by_cases hij : i = j
      · subst hij
        cases hc : bk.gpt4 i <;>
          simp [pageEventsPP, hp, netOcrCountAt, call_gpt4_image_api, hc,
            gpt4_ne_gcv_p]
      · cases hc : bk.gpt4 i <;>
          simp [pageEventsPP, hp, netOcrCountAt, call_gpt4_image_api, hc, hij,
            gpt4_ne_gcv_p]
    · by_cases hij : i = j
      · subst hij
        cases hc : bk.mistral i <;>
          simp [pageEventsPP, hp, netOcrCountAt, call_mistral_ocr, hc,
            mistral_ne_gcv_p, mistral_ne_gpt4_p]
      · cases hc : bk.mistral i <;>
          simp [pageEventsPP, hp, netOcrCountAt, call_mistral_ocr, hc, hij,
            mistral_ne_gcv_p, mistral_ne_gpt4_p]

theorem netOcrCountAt_eventsSpecPP_lt (bk : OcrBackends) (choice : Str)
    (hv : validChoice choice) (pages : List PdfPage) : ∀ (i j : Nat), j < i →
    netOcrCountAt (eventsSpecPP bk choice i pages) j = 0 := by
  induction pages with
  | nil => intro i j _; rfl
  | cons p rest ih =>
    intro i j hj
    rw [show eventsSpecPP bk choice i (p :: rest) =
          pageEventsPP bk choice i p ++ eventsSpecPP bk choice (i + 1) rest from rfl,
      netOcrCountAt_append, netOcrCountAt_pageEventsPP bk choice hv i j p,
      ih (i + 1) j (by omega)]
    have hij : ¬ i = j := by omega
    cases hp : pageHasText p <;> simp [hij]

theorem netOcrCountAt_eventsSpecPP (bk : OcrBackends) (choice : Str)
    (hv : validChoice choice) (pages : List PdfPage) : ∀ (i j : Nat),
    i ≤ j → j < i + pages.length →
    netOcrCountAt (eventsSpecPP bk choice i pages) j =
      if pageHasText (pages.getD (j - i) blankPage) then 0 else 1 := by
  induction pages with
  | nil => intro i j h1 h2; simp at h2; omega
  | cons p rest ih =>
    intro i j h1 h2
    rw [show eventsSpecPP bk choice i (p :: rest) =
          pageEventsPP bk choice i p ++ eventsSpecPP bk choice (i + 1) rest from rfl,
      netOcrCountAt_append, netOcrCountAt_pageEventsPP bk choice hv i j p]
    by_cases hij : i = j
    · subst hij
      rw [netOcrCountAt_eventsSpecPP_lt bk choice hv rest (i + 1) i (by omega)]
      simp
    · have h3 : i + 1 ≤ j := by omega
      rw [ih (i + 1) j h3 (by simp at h2 ⊢; omega)]
      have h4 : j - i = (j - (i + 1)) + 1 := by omega
      rw [h4]
      cases hp : pageHasText p <;>
        simp [hij, List.getD_cons_succ]

/-- A secret store in which the Mistral OCR credential is absent. -/
def secNoMistral : Secrets := ⟨some ("K1".toList), some ("K2".toList), none⟩

/-- C7 is false as stated: a page lacking embedded text with Mistral OCR
selected and its credential missing from the secret store triggers zero OCR
call attempts for that page (the loop skips the page), not exactly one. -/
theorem c7_zero_calls_counterexample :
    pageHasText blankPage = false ∧
    netOcrCountAt ((extract_text_from_pdf_with_image_fallback secNoMistral
        bkAllOk [blankPage] mistralStr).2.2.2) 1 = 0 :=
  ⟨rfl, rfl⟩

/-- C7 as amended: when the selected OCR backend is one of the three
dispatched choices and its credential is available, exactly one OCR call is
attempted for every page lacking embedded text — never zero and never more
than one — and none for pages with embedded text, regardless of the selected
backend. -/
theorem c7_exactly_one_ocr_call (sec : Secrets) (bk : OcrBackends)
    (pages : List PdfPage) (choice : Str) (hv : validChoice choice)
    (hk : choiceKeyUsable sec choice = true) (k : Nat) (hkk : k < pages.length) :
    netOcrCountAt ((extract_text_from_pdf_with_image_fallback sec bk pages
        choice).2.2.2) (k + 1) =
      if pageHasText (pages.getD k blankPage) then 0 else 1 := by
  cases pages with
  | nil => simp at hkk
  | cons p rest =>
    show netOcrCountAt (extractLoopPP sec bk choice 1 (p :: rest) initState).events
        (k + 1) = _
    rw [extractLoopPP_eq sec bk choice hv hk (p :: rest) 1 initState]
    show netOcrCountAt ([] ++ eventsSpecPP bk choice 1 (p :: rest)) (k + 1) = _
    rw [List.nil_append,
      netOcrCountAt_eventsSpecPP bk choice hv (p :: rest) 1 (k + 1) (by omega)
        (by omega)]
    simp

/-- Witness for the amended C7: page 2 of the spec scenario lacks embedded
text and receives exactly one OCR call. -/
theorem c7_exactly_one_ocr_call_witness :
    validChoice gcvStr ∧ choiceKeyUsable secAll gcvStr = true ∧
    (1 : Nat) < ([acmePage, blankPage] : List PdfPage).length ∧
    netOcrCountAt ((extract_text_from_pdf_with_image_fallback secAll bkAllOk
        [acmePage, blankPage] gcvStr).2.2.2) 2 =
      if pageHasText (([acmePage, blankPage] : List PdfPage).getD 1 blankPage)
      then 0 else 1 :=
  ⟨Or.inl rfl, by decide, by decide,
    c7_exactly_one_ocr_call secAll bkAllOk [acmePage, blankPage] gcvStr
      (Or.inl rfl) (by decide) 1 (by decide)⟩

theorem pageEventsPP_subset_eventsSpecPP (bk : OcrBackends) (choice : Str)
    (pages : List PdfPage) : ∀ (i k : Nat), k < pages.length →
    pageEventsPP bk choice (i + k) (pages.getD k blankPage) ⊆
      eventsSpecPP bk choice i pages := by
  induction pages with
  | nil => intro i k hk; simp at hk
  | cons p rest ih =>
    intro i k hk
    rw [show eventsSpecPP bk choice i (p :: rest) =
          pageEventsPP bk choice i p ++ eventsSpecPP bk choice (i + 1) rest from rfl]
    cases k with
    | zero =>
      simp only [List.getD_cons_zero, Nat.add_zero]
      exact List.subset_append_left _ _
    | succ k' =>
      have h1 : i + (k' + 1) = (i + 1) + k' := by omega
      rw [List.getD_cons_succ, h1]
      exact (ih (i + 1) k' (by simpa using hk)).trans (List.subset_append_right _ _)

/-- A secret store in which the Google Cloud Vision credential is absent. -/
def secNoGv : Secrets := ⟨some ("K1".toList), none, some ("K3".toList)⟩

/-- A page with embedded text TEXT. -/
def textPage : PdfPage := ⟨some ("TEXT".toList)⟩

/-- Backends whose Google Cloud Vision calls fail. -/
def bkGcvFail : OcrBackends :=
  ⟨fun _ => .fail ("HTTP 403".toList),
   fun _ => .ok ("OCRTEXT".toList) ⟨5, 7, 12⟩,
   fun _ => .ok ("OCRTEXT".toList)⟩

/-- C3 is false as stated: in the app.py variant, when the Google Cloud Vision
credential is unavailable at the point of the OCR fallback for page 1, the
pass aborts the whole document (early return of the empty string), so the
subsequent page 2 — which carries embedded text TEXT — is not processed.  The
claim instead requires page 1 to contribute empty text and processing to
continue, which would yield TEXT. -/
theorem c3_missing_key_abort_counterexample :
    (extract_text_from_pdf_with_image_fallback_app secNoGv bkAllOk
        [blankPage, textPage] ("K1".toList) gcvStr).1 = [] ∧
    strip (sepNl [[], "TEXT".toList]) = "TEXT".toList ∧
    ([] : Str) ≠ "TEXT".toList :=
  ⟨rfl, rfl, by decide⟩

/-- C3 as amended: in the pdf_processing variant, when the selected backend is
one of the three dispatched choices, its credential is available, and the OCR
call itself fails on a page lacking embedded text, the failure message is
reported, that page contributes empty text to the combined block, and the pass
processes all pages without aborting (the combined text is still the per-page
outputs in page order).  When the credential is unavailable, pdf_processing
instead skips the page entirely and app.py aborts the document. -/
theorem c3_ocr_call_failure_continues (sec : Secrets) (bk : OcrBackends)
    (pages : List PdfPage) (choice : Str) (hv : validChoice choice)
    (hk : choiceKeyUsable sec choice = true) (k : Nat) (hkk : k < pages.length)
    (hblank : pageHasText (pages.getD k blankPage) = false)
    (m : Str) (hfail : ocrFailMsg bk choice (k + 1) = some m) :
    Event.errorOcr choice m ∈
      (extract_text_from_pdf_with_image_fallback sec bk pages choice).2.2.2 ∧
    (extract_text_from_pdf_with_image_fallback sec bk pages choice).1 =
      strip (sepNl (pageOutputs bk choice 1 pages)) ∧
    pageOutput bk choice (k + 1) (pages.getD k blankPage) = [] := by
  simp only [List.getD_eq_getElem?_getD] at hblank ⊢
  refine ⟨?_, extractPP_combined_eq sec bk pages choice hv hk, ?_⟩
  · cases pages with
    | nil => simp at hkk
    | cons p rest =>
      show Event.errorOcr choice m ∈
        (extractLoopPP sec bk choice 1 (p :: rest) initState).events
      rw [extractLoopPP_eq sec bk choice hv hk (p :: rest) 1 initState]
      show Event.errorOcr choice m ∈ [] ++ eventsSpecPP bk choice 1 (p :: rest)
      rw [List.nil_append]
      apply pageEventsPP_subset_eventsSpecPP bk choice (p :: rest) 1 k hkk
      have h1 : (1 : Nat) + k = k + 1 := by omega
      rw [h1]
      rcases hv with h | h | h <;> subst h
      · revert hfail
        cases hc : bk.gcv (k + 1) with
        | ok t => simp [ocrFailMsg, hc]
        | fail m' =>
          intro hfail
          have hm : m' = m := by simpa [ocrFailMsg, hc] using hfail
          subst hm
          simp [pageEventsPP, hblank, call_google_vision_ocr, hc]
      · revert hfail
        cases hc : bk.gpt4 (k + 1) with
        | ok t u => simp [ocrFailMsg, hc, gpt4_ne_gcv_p]
        | fail m' =>
          intro hfail
          have hm : m' = m := by simpa [ocrFailMsg, hc, gpt4_ne_gcv_p] using hfail
          subst hm
          simp [pageEventsPP, hblank, call_gpt4_image_api, hc, gpt4_ne_gcv_p]
      · revert hfail
        cases hc : bk.mistral (k + 1) with
        | ok t => simp [ocrFailMsg, hc, mistral_ne_gcv_p, mistral_ne_gpt4_p]
        | fail m' =>
          intro hfail
          have hm : m' = m := by
            simpa [ocrFailMsg, hc, mistral_ne_gcv_p, mistral_ne_gpt4_p] using hfail
          subst hm
          simp [pageEventsPP, hblank, call_mistral_ocr, hc, mistral_ne_gcv_p,
            mistral_ne_gpt4_p]
  · rcases hv with h | h | h <;> subst h
    · revert hfail
      cases hc : bk.gcv (k + 1) with
      | ok t => simp [ocrFailMsg, hc]
      | fail m' =>
        intro _
        simp [pageOutput, hblank, ocrText, call_google_vision_ocr, hc]
    · revert hfail
      cases hc : bk.gpt4 (k + 1) with
      | ok t u => simp [ocrFailMsg, hc, gpt4_ne_gcv_p]
      | fail m' =>
        intro _
        simp [pageOutput, hblank, ocrText, call_gpt4_image_api, hc, gpt4_ne_gcv_p]
    · revert hfail
      cases hc : bk.mistral (k + 1) with
      | ok t => simp [ocrFailMsg, hc, mistral_ne_gcv_p, mistral_ne_gpt4_p]
      | fail m' =>
        intro _
        simp [pageOutput, hblank, ocrText, call_mistral_ocr, hc,
          mistral_ne_gcv_p, mistral_ne_gpt4_p]

/-- Witness for the amended C3: Google Cloud Vision fails on page 2 of the
spec scenario; the failure is reported, the page contributes empty text, and
the combined block still covers both pages. -/
theorem c3_ocr_call_failure_continues_witness :
    validChoice gcvStr ∧ choiceKeyUsable secAll gcvStr = true ∧
    (1 : Nat) < ([acmePage, blankPage] : List PdfPage).length ∧
    pageHasText (([acmePage, blankPage] : List PdfPage).getD 1 blankPage) = false ∧
    ocrFailMsg bkGcvFail gcvStr 2 = some ("HTTP 403".toList) ∧
    Event.errorOcr gcvStr ("HTTP 403".toList) ∈
      (extract_text_from_pdf_with_image_fallback secAll bkGcvFail
        [acmePage, blankPage] gcvStr).2.2.2 ∧
    (extract_text_from_pdf_with_image_fallback secAll bkGcvFail
        [acmePage, blankPage] gcvStr).1 =
      strip (sepNl (pageOutputs bkGcvFail gcvStr 1 [acmePage, blankPage])) ∧
    pageOutput bkGcvFail gcvStr 2
      (([acmePage, blankPage] : List PdfPage).getD 1 blankPage) = [] := by
  refine ⟨Or.inl rfl, by decide, by decide, by decide, rfl, ?_⟩
  exact c3_ocr_call_failure_continues secAll bkGcvFail [acmePage, blankPage]
    gcvStr (Or.inl rfl) (by decide) 1 (by decide) (by decide)
    ("HTTP 403".toList) rfl

/-- C4: cost accounting is a pure function of the usage counters (the cost
definitions take only counters) and is linear: doubling prompt_tokens doubles
the prompt-cost component of the text-extraction subtotal, and the displayed
combined cost equals the sum of the text-based and image-based subtotals. -/
theorem c4_cost_linear :
    (∀ p : Nat, cost_prompt_cents (2 * p) = 2 * cost_prompt_cents p) ∧
    (∀ (img_model : Str) (gcv_count : Nat) (image_usage text_usage : Usage),
      combined_cost_cents img_model gcv_count image_usage text_usage =
        text_cost_cents text_usage.prompt_tokens text_usage.completion_tokens +
          image_cost_cents img_model gcv_count image_usage) := by
  constructor
  · intro p
    unfold cost_prompt_cents
    push_cast
    ring
  · intro img_model gcv_count image_usage text_usage
    rfl

theorem get_api_key_app_fst (sec : Secrets) :
    (get_api_key_app sec).1 = sec.gpt4oMini := by
  cases h : sec.gpt4oMini <;> simp [get_api_key_app, h]

theorem get_gv_app_fst (sec : Secrets) :
    (get_google_vision_api_key_app sec).1 = sec.googleVision := by
  cases h : sec.googleVision <;> simp [get_google_vision_api_key_app, h]

theorem extractLoopApp_gcv_missing_key (sec : Secrets) (bk : OcrBackends)
    (api_key : Str) (hk : truthy sec.googleVision = false) (pages : List PdfPage) :
    ∀ (i : Nat) (st : ExtractState), (∃ p ∈ pages, pageHasText p = false) →
    ∃ (st' : ExtractState) (j : Nat),
      extractLoopApp sec bk api_key gcvStr i pages st = .aborted st' ∧
      st'.usage = st.usage ∧ st'.gcv_count = st.gcv_count ∧
      st'.events = st.events ++ [Event.infoNoText j gcvStr] ++
        (get_google_vision_api_key_app sec).2 := by
  induction pages with
  | nil => intro i st h; simp at h
  | cons p rest ih =>
    intro i st h
    cases hp : pageHasText p with
    | true =>
      have h' : ∃ q ∈ rest, pageHasText q = false := by
        rcases h with ⟨q, hq, hq2⟩
        rcases List.mem_cons.mp hq with rfl | hq'
        · rw [hp] at hq2; cases hq2
        · exact ⟨q, hq', hq2⟩
      have step : extractLoopApp sec bk api_key gcvStr i (p :: rest) st =
          extractLoopApp sec bk api_key gcvStr (i + 1) rest
            { st with full_text := st.full_text ++ p.extractedText.getD [] ++ ['\n'] } := by
        simp only [extractLoopApp]
        simp [hp]
      rw [step]
      obtain ⟨st', j, h1, h2, h3, h4⟩ := ih (i + 1) _ h'
      exact ⟨st', j, h1, h2, h3, by simpa using h4⟩
    | false =>
      have hkr : truthy (get_google_vision_api_key_app sec).1 = false := by
        rw [get_gv_app_fst]; exact hk
      refine ⟨{ st with events := st.events ++ [Event.infoNoText i gcvStr] ++
          (get_google_vision_api_key_app sec).2 }, i, ?_, rfl, rfl, rfl⟩
      simp only [extractLoopApp]
      simp [hp, hkr]

theorem extract_app_gcv_missing_key (sec : Secrets) (bk : OcrBackends)
    (api_key : Str) (hk : truthy sec.googleVision = false) (pages : List PdfPage)
    (hb : ∃ p ∈ pages, pageHasText p = false) :
    (extract_text_from_pdf_with_image_fallback_app sec bk pages api_key gcvStr).1 = [] ∧
    ((extract_text_from_pdf_with_image_fallback_app sec bk pages api_key
        gcvStr).2.2.2.any isGcvKeyReport) = true ∧
    ∀ e ∈ (extract_text_from_pdf_with_image_fallback_app sec bk pages api_key
        gcvStr).2.2.2, isNetEvent e = false := by
  cases pages with
  | nil => simp at hb
  | cons p rest =>
    obtain ⟨st', j, h1, h2, h3, h4⟩ :=
      extractLoopApp_gcv_missing_key sec bk api_key hk (p :: rest) 1 initState hb
    have hres : extract_text_from_pdf_with_image_fallback_app sec bk (p :: rest)
        api_key gcvStr = ([], st'.usage, st'.gcv_count, st'.events) := by
      simp only [extract_text_from_pdf_with_image_fallback_app]
      rw [h1]
    rw [hres]
    refine ⟨rfl, ?_, ?_⟩
    · rw [h4]
      cases hg : sec.googleVision with
      | none =>
        simp [get_google_vision_api_key_app, hg, isGcvKeyReport, initState]
      | some k =>
        have hke : k.isEmpty = true := by simpa [truthy, hg] using hk
        simp [get_google_vision_api_key_app, hg, hke, isGcvKeyReport, initState]
    · intro e he
      rw [h4] at he
      cases hg : sec.googleVision with
      | none =>
        simp [get_google_vision_api_key_app, hg, initState] at he
        rcases he with rfl | rfl <;> rfl
      | some k =>
        have hke : k.isEmpty = true := by simpa [truthy, hg] using hk
        simp [get_google_vision_api_key_app, hg, hke, initState] at he
        rcases he with rfl | rfl <;> rfl

/-- A structured-extraction oracle that always fails with an OpenAIError. -/
def apiNone : Str → Option Resp := fun _ => none

/-- A json.loads oracle that always raises JSONDecodeError. -/
def parseNone : Str → Option Json := fun _ => none

/-- A response whose choices array is an empty list. -/
def respEmptyChoices : Resp := ⟨some [], ⟨100, 50, 150⟩⟩

/-- A response lacking the choices key. -/
def respNoChoices : Resp := ⟨none, ⟨100, 50, 150⟩⟩

/-- A structured-extraction oracle returning the empty-choices response. -/
def apiEmptyChoices : Str → Option Resp := fun _ => some respEmptyChoices

/-- A structured-extraction oracle returning the response without choices. -/
def apiNoChoices : Str → Option Resp := fun _ => some respNoChoices

/-- C8: in app.py main, a missing (or falsy) required credential is reported
and the request aborts before any network call: (a) when the GPT-4o-mini key
is not available the request aborts immediately; (b) when Google Cloud Vision
is the selected image model, its key is not available, and the document has a
page lacking embedded text, the request aborts after the extraction pass and,
in both cases, the whole event trace contains a missing-credential report and
no network request. -/
theorem c8_missing_credential_aborts (sec : Secrets) (bk : OcrBackends)
    (img_model : Str) (fileBytes : Option (List PdfPage))
    (api : Str → Option Resp) (parse : Str → Option Json) :
    (truthy sec.gpt4oMini = false →
      (mainApp sec bk img_model fileBytes api parse).1 = ReqOutcome.abortedNoApiKey ∧
      ((mainApp sec bk img_model fileBytes api parse).2.any isGptKeyReport) = true ∧
      ∀ e ∈ (mainApp sec bk img_model fileBytes api parse).2,
        isNetEvent e = false) ∧
    (truthy sec.gpt4oMini = true → img_model = gcvStr →
      truthy sec.googleVision = false →
      ∀ pages, fileBytes = some pages →
      (∃ p ∈ pages, pageHasText p = false) →
      (mainApp sec bk img_model fileBytes api parse).1 = ReqOutcome.abortedNoText ∧
      ((mainApp sec bk img_model fileBytes api parse).2.any isGcvKeyReport) = true ∧
      ∀ e ∈ (mainApp sec bk img_model fileBytes api parse).2,
        isNetEvent e = false) := by
  constructor
  · intro hA
    cases hgp : sec.gpt4oMini with
    | none =>
      have hmain : mainApp sec bk img_model fileBytes api parse =
          (ReqOutcome.abortedNoApiKey, [Event.errorKeyRetrieval gptKeyName]) := by
        simp only [mainApp]
        simp [get_api_key_app, hgp, truthy]
      rw [hmain]
      refine ⟨rfl, by simp [isGptKeyReport], ?_⟩
      intro e he
      simp at he
      subst he
      rfl
    | some k =>
      have hke : k.isEmpty = true := by simpa [truthy, hgp] using hA
      have hmain : mainApp sec bk img_model fileBytes api parse =
          (ReqOutcome.abortedNoApiKey, [Event.errorMissingKey gptKeyName]) := by
        simp only [mainApp]
        simp [get_api_key_app, hgp, hke, truthy]
      rw [hmain]
      refine ⟨rfl, by simp [isGptKeyReport], ?_⟩
      intro e he
      simp at he
      subst he
      rfl
  · intro hA hm hgv pages hfb hblank
    subst hm
    subst hfb
    cases hgp : sec.gpt4oMini with
    | none => rw [hgp] at hA; simp [truthy] at hA
    | some k =>
      have hke : k.isEmpty = false := by simpa [truthy, hgp] using hA
      obtain ⟨h1, h2, h3⟩ := extract_app_gcv_missing_key sec bk
        ((get_api_key_app sec).1.getD []) hgv pages hblank
      have htr : truthy (get_api_key_app sec).1 = true := by
        rw [get_api_key_app_fst, hgp]
        simp [truthy, hke]
      have hie : (extract_text_from_pdf_with_image_fallback_app sec bk pages
          ((get_api_key_app sec).1.getD []) gcvStr).1.isEmpty = true := by
        rw [h1]; rfl
      have hmain : mainApp sec bk gcvStr (some pages) api parse =
          (ReqOutcome.abortedNoText, (get_api_key_app sec).2 ++
            (extract_text_from_pdf_with_image_fallback_app sec bk pages
              ((get_api_key_app sec).1.getD []) gcvStr).2.2.2 ++
            [Event.warnNoText]) := by
        simp only [mainApp]
        simp [htr, hie]
      rw [hmain]
      have hkr2 : (get_api_key_app sec).2 = [] := by
        simp [get_api_key_app, hgp, hke]
      refine ⟨rfl, ?_, ?_⟩
      · rw [hkr2]
        simp [List.any_append, h2]
      · intro e he
        rw [hkr2] at he
        simp at he
        rcases he with he | rfl
        · exact h3 e he
        · rfl

/-- Witness for C8 part (b): GPT-4o-mini key present, Google Cloud Vision key
absent, one image-only page: the request aborts with the missing credential
reported and no network request in the trace. -/
theorem c8_missing_credential_aborts_witness :
    truthy secNoGv.gpt4oMini = true ∧ truthy secNoGv.googleVision = false ∧
    (∃ p ∈ [blankPage], pageHasText p = false) ∧
    ((mainApp secNoGv bkAllOk gcvStr (some [blankPage]) apiNone parseNone).1 =
        ReqOutcome.abortedNoText ∧
      ((mainApp secNoGv bkAllOk gcvStr (some [blankPage]) apiNone
          parseNone).2.any isGcvKeyReport) = true ∧
      ∀ e ∈ (mainApp secNoGv bkAllOk gcvStr (some [blankPage]) apiNone
          parseNone).2, isNetEvent e = false) :=
  ⟨by decide, by decide, ⟨blankPage, by simp, rfl⟩,
    (c8_missing_credential_aborts secNoGv bkAllOk gcvStr (some [blankPage])
        apiNone parseNone).2 (by decide) rfl (by decide) [blankPage] rfl
      ⟨blankPage, by simp, rfl⟩⟩

/-- C5 is false as stated: a reply whose choices array is empty lacks the
expected message field, yet app.py raises an uncaught IndexError (the except
clause at line 330 only catches KeyError and json.JSONDecodeError), so the raw
response is never reported.  No ExtractionResult is produced, but the
abort-with-raw-response branch the claim requires is not taken. -/
theorem c5_empty_choices_counterexample :
    (mainApp secAll bkAllOk gcvStr (some [acmePage]) apiEmptyChoices
        parseNone).1 = ReqOutcome.uncaughtIndexError respEmptyChoices ∧
    Event.errorBadJson ∉
      (mainApp secAll bkAllOk gcvStr (some [acmePage]) apiEmptyChoices
        parseNone).2 :=
  ⟨rfl, by decide⟩

/-- C5 as amended: whenever the reply's message content is unreachable through
a missing key (KeyError) or its content fails to parse as JSON, app.py reports
the raw response and aborts the rendering pipeline for the request: the
outcome carries no parsed prediction and nothing further is rendered.  An
empty choices array instead raises an uncaught IndexError without the
raw-response report. -/
theorem c5_bad_json_aborts (sec : Secrets) (bk : OcrBackends) (img_model : Str)
    (pages : List PdfPage) (api : Str → Option Resp) (parse : Str → Option Json)
    (r : Resp)
    (hkey : truthy (get_api_key_app sec).1 = true)
    (htext : (extract_text_from_pdf_with_image_fallback_app sec bk pages
      ((get_api_key_app sec).1.getD []) img_model).1.isEmpty = false)
    (hapi : api (extract_text_from_pdf_with_image_fallback_app sec bk pages
      ((get_api_key_app sec).1.getD []) img_model).1 = some r)
    (hcase : getMessageContent r = Except.error PyErr.keyError ∨
      ∃ c, getMessageContent r = Except.ok c ∧ parse c = none) :
    (mainApp sec bk img_model (some pages) api parse).1 =
      ReqOutcome.abortedBadJson r ∧
    Event.errorBadJson ∈ (mainApp sec bk img_model (some pages) api parse).2 := by
  have hmain : mainApp sec bk img_model (some pages) api parse =
      (ReqOutcome.abortedBadJson r,
        (get_api_key_app sec).2 ++
          (extract_text_from_pdf_with_image_fallback_app sec bk pages
            ((get_api_key_app sec).1.getD []) img_model).2.2.2 ++
          [Event.netExtraction] ++ [Event.errorBadJson]) := by
    simp only [mainApp]
    rcases hcase with hck | ⟨c, hok, hparse⟩
    · simp [hkey, htext, hapi, hck]
    · simp [hkey, htext, hapi, hok, hparse]
  rw [hmain]
  exact ⟨rfl, by simp⟩

/-- Witness for the amended C5: the reply lacks the choices key, the raw
response is reported and the request aborts. -/
theorem c5_bad_json_aborts_witness :
    truthy (get_api_key_app secAll).1 = true ∧
    (extract_text_from_pdf_with_image_fallback_app secAll bkAllOk [acmePage]
      ((get_api_key_app secAll).1.getD []) gcvStr).1.isEmpty = false ∧
    apiNoChoices (extract_text_from_pdf_with_image_fallback_app secAll bkAllOk
      [acmePage] ((get_api_key_app secAll).1.getD []) gcvStr).1 =
      some respNoChoices ∧
    getMessageContent respNoChoices = Except.error PyErr.keyError ∧
    ((mainApp secAll bkAllOk gcvStr (some [acmePage]) apiNoChoices parseNone).1 =
        ReqOutcome.abortedBadJson respNoChoices ∧
      Event.errorBadJson ∈
        (mainApp secAll bkAllOk gcvStr (some [acmePage]) apiNoChoices
          parseNone).2) :=
  ⟨by decide, by decide, rfl, rfl,
    c5_bad_json_aborts secAll bkAllOk gcvStr [acmePage] apiNoChoices parseNone
      respNoChoices (by decide) (by decide) rfl (Or.inl rfl)⟩

theorem olookup_none_of_keys_subset (o : List (Str × Json)) (k : Str)
    (h1 : ∀ p ∈ o, p.1 ∈ bol_keys) (hk : k ∉ bol_keys) : olookup k o = none := by
  induction o with
  | nil => rfl
  | cons e rest ih =>
    cases e with
    | mk k' v =>
      rw [show olookup k ((k', v) :: rest) =
            if k = k' then some v else olookup k rest from rfl]
      by_cases hkk : k = k'
      · subst hkk
        exact absurd (h1 (k, v) (by simp)) hk
      · rw [if_neg hkk]
        exact ih (fun p hp => h1 p (by simp [hp]))

/-- A JSON object holding every recognized key plus one extra key. -/
def c9_obj_extra : List (Str × Json) :=
  [("bill_of_lading_number".toList, Json.str ("B1".toList)),
   ("shipper".toList, Json.str ("S".toList)),
   ("consignee".toList, Json.str ("C".toList)),
   ("port_of_loading".toList, Json.str ("POL".toList)),
   ("port_of_discharge".toList, Json.str ("POD".toList)),
   ("notify_parties".toList, Json.null),
   ("port_of_discharge_agent".toList, Json.null),
   ("vessel_and_voyage_no".toList, Json.null),
   ("booking_ref".toList, Json.null),
   ("number_of_containers".toList, Json.num 2),
   ("container_info".toList, Json.arr []),
   ("extra_key".toList, Json.null)]

/-- C9 is false as stated (against the spec-modelled serializer): an object
containing all recognized keys may also contain further keys, and those are
dropped by the ExtractionResult round trip, so the re-parsed object is not
identical to the original. -/
theorem c9_roundtrip_counterexample :
    (∀ k ∈ bol_keys, (olookup k c9_obj_extra).isSome = true) ∧
    ¬ objEqv (roundtripExtractionResult c9_obj_extra) c9_obj_extra := by
  constructor
  · decide
  · intro h
    have h1 := h ("extra_key".toList)
    rw [show olookup ("extra_key".toList)
          (roundtripExtractionResult c9_obj_extra) = none from rfl,
      show olookup ("extra_key".toList) c9_obj_extra = some Json.null from rfl] at h1
    exact Option.noConfusion h1

/-- C9 as amended: for every JSON object whose keys are exactly the recognized
ExtractionResult keys (each recognized key present, no others), the
ExtractionResult built from it, serialized back to JSON and re-parsed, yields
an object identical to the original. -/
theorem some_getD_of_isSome {α : Type} (o : Option α) (d : α)
    (h : o.isSome = true) : some (o.getD d) = o := by
  cases o with
  | none => simp at h
  | some v => rfl

theorem c9_roundtrip_exact_keys (o : List (Str × Json))
    (h1 : ∀ p ∈ o, p.1 ∈ bol_keys)
    (h2 : ∀ k ∈ bol_keys, (olookup k o).isSome = true) :
    objEqv (roundtripExtractionResult o) o := by
  intro k
  by_cases hk : k ∈ bol_keys
  · simp [bol_keys] at hk
    rcases hk with rfl | rfl | rfl | rfl | rfl | rfl | rfl | rfl | rfl | rfl | rfl <;>
      exact Eq.trans rfl
        (some_getD_of_isSome _ Json.null (h2 _ (by simp [bol_keys])))
  · rw [olookup_none_of_keys_subset o k h1 hk]
    simp [bol_keys] at hk
    simp [roundtripExtractionResult, serializeExtractionResult,
      buildExtractionResult, olookup, hk]

/-- A JSON object with exactly the recognized keys. -/
def c9_obj_exact : List (Str × Json) :=
  [("bill_of_lading_number".toList, Json.str ("B1".toList)),
   ("shipper".toList, Json.str ("S".toList)),
   ("consignee".toList, Json.str ("C".toList)),
   ("port_of_loading".toList, Json.str ("POL".toList)),
   ("port_of_discharge".toList, Json.str ("POD".toList)),
   ("notify_parties".toList, Json.null),
   ("port_of_discharge_agent".toList, Json.null),
   ("vessel_and_voyage_no".toList, Json.null),
   ("booking_ref".toList, Json.null),
   ("number_of_containers".toList, Json.num 2),
   ("container_info".toList, Json.arr [Json.obj []])]

/-- Witness for the amended C9 at a concrete object with exactly the
recognized keys. -/
theorem c9_roundtrip_exact_keys_witness :
    (∀ p ∈ c9_obj_exact, p.1 ∈ bol_keys) ∧
    (∀ k ∈ bol_keys, (olookup k c9_obj_exact).isSome = true) ∧
    objEqv (roundtripExtractionResult c9_obj_exact) c9_obj_exact :=
  ⟨by decide, by decide,
    c9_roundtrip_exact_keys c9_obj_exact (by decide) (by decide)⟩

theorem copyRowStyles_length (row : List XCell) : ∀ prev : List XCell,
    (copyRowStyles prev row).length = row.length := by
  induction row with
  | nil => intro prev; rfl
  | cons c rest ih => intro prev; simp [copyRowStyles, ih]

theorem copyRowStyles_value (row : List XCell) : ∀ (prev : List XCell) (j : Nat),
    ((copyRowStyles prev row).getD j blankXCell).value =
      (row.getD j blankXCell).value := by
  induction row with
  | nil => intro prev j; rfl
  | cons c rest ih =>
    intro prev j
    cases j with
    | zero =>
      show ((if (prev.headD blankXCell).has_style then
        { c with has_style := true, style := (prev.headD blankXCell).style }
        else c)).value = c.value
      split <;> rfl
    | succ j' =>
      show ((copyRowStyles prev.tail rest).getD j' blankXCell).value = _
      rw [ih prev.tail j', List.getD_cons_succ]

theorem new_row_getD_value (row_data : List (Str × Str)) (header : List Str) :
    ∀ j : Nat, j < header.length →
    ((header.map (fun col =>
        XCell.mk ((lookupStr col row_data).getD []) false defaultXStyle)).getD j
        blankXCell).value =
      (lookupStr (header.getD j []) row_data).getD [] := by
  induction header with
  | nil => intro j hj; simp at hj
  | cons c rest ih =>
    intro j hj
    cases j with
    | zero => rfl
    | succ j' =>
      show ((rest.map _).getD j' blankXCell).value = _
      rw [ih j' (by simpa using hj), List.getD_cons_succ]

/-- C10: append_row_to_excel on an existing workbook with a header row leaves
every previously existing cell unchanged and appends exactly one row; the
appended row has one cell per header column, whose value under header column c
is row_data.get(c, "") — so keys of row_data not present in the header are
silently dropped. -/
theorem c10_append_row (row_data : List (Str × Str)) (ws : List (List XCell))
    (_h : ws ≠ []) :
    (append_row_to_excel row_data ws).length = ws.length + 1 ∧
    (append_row_to_excel row_data ws).take ws.length = ws ∧
    ((append_row_to_excel row_data ws).getLastD []).length =
      (ws.headD []).length ∧
    ∀ j, j < (ws.headD []).length →
      (((append_row_to_excel row_data ws).getLastD []).getD j blankXCell).value =
        (lookupStr (((ws.headD []).map (fun c => c.value)).getD j [])
          row_data).getD [] := by
  have hlast : ∀ (l : List (List XCell)) (x d : List XCell),
      (l ++ [x]).getLastD d = x := fun l x d => List.getLastD_concat d x l
  unfold append_row_to_excel
  refine ⟨by simp, by simp [List.take_left], ?_, ?_⟩
  · rw [hlast]
    split
    · rw [copyRowStyles_length]
      simp
    · simp
  · intro j hj
    rw [hlast]
    have hj' : j < ((ws.headD []).map (fun c => c.value)).length := by
      simpa using hj
    split
    · rw [copyRowStyles_value]
      exact new_row_getD_value row_data _ j hj'
    · exact new_row_getD_value row_data _ j hj'

/-- An existing workbook: a header row and one styled data row. -/
def c10_ws : List (List XCell) :=
  [[⟨"Shipper".toList, false, defaultXStyle⟩,
    ⟨"Consignee".toList, false, defaultXStyle⟩],
   [⟨"A".toList, true, ⟨1, 1, 1, [], 1, 1⟩⟩,
    ⟨"B".toList, true, ⟨1, 1, 1, [], 1, 1⟩⟩]]

/-- Row data with one header key and one key absent from the header. -/
def c10_row : List (Str × Str) :=
  [("Shipper".toList, "ACME".toList), ("Extra".toList, "X".toList)]

/-- Witness for C10 on a concrete workbook and row. -/
theorem c10_append_row_witness :
    c10_ws ≠ [] ∧
    ((append_row_to_excel c10_row c10_ws).length = c10_ws.length + 1 ∧
     (append_row_to_excel c10_row c10_ws).take c10_ws.length = c10_ws ∧
     ((append_row_to_excel c10_row c10_ws).getLastD []).length =
       (c10_ws.headD []).length ∧
     ∀ j, j < (c10_ws.headD []).length →
       (((append_row_to_excel c10_row c10_ws).getLastD []).getD j
           blankXCell).value =
         (lookupStr (((c10_ws.headD []).map (fun c => c.value)).getD j [])
           c10_row).getD []) :=
  ⟨by decide, c10_append_row c10_row c10_ws (by decide)⟩
